import Mathlib

/-!
Shallow embedding of the core of `libqit.py` (a minimal git-like object store)
and proofs about its specification claims.

Modelling conventions:
* Python byte strings are `List Nat` (each element a byte value);
  Python text strings are Lean `String`.
* Python `bytes.find` returns `-1` on failure, so our `pyFind` returns `Int`.
* Python slices/negative indices are modelled by `pySlice`/`pySliceFrom`.
* Fallible code (exceptions, `assert`, unbound locals) returns `Option`/`Except`.
* The unbounded recursions of the source (`ref_resolve`, `kvlm_parse`'s loops,
  `tree_parse`'s loop) are given explicit fuel; fuel exhaustion models
  non-termination (Python's `RecursionError`/infinite loop).
* The filesystem a repository presents to the resolver is abstracted into the
  `Repo` structure: reference-file contents and the `objects/<xx>/` listings.
-/

set_option maxRecDepth 8000

deriving instance DecidableEq for Except

/-- Bytes of an ASCII string literal: Python byte strings are `List Nat`. -/
def strToBytes (s : String) : List Nat := s.data.map Char.toNat

/-- Normalize a Python slice index: negative indices count from the end
(clamped at 0), positive ones are clamped at the length. -/
def pyIdx (len : Nat) (i : Int) : Nat :=
  if i < 0 then ((len : Int) + i).toNat else min i.toNat len

/-- Python slice `raw[a:b]`. -/
def pySlice (raw : List Nat) (a b : Int) : List Nat :=
  (raw.drop (pyIdx raw.length a)).take (pyIdx raw.length b - pyIdx raw.length a)

/-- Python slice `raw[a:]`. -/
def pySliceFrom (raw : List Nat) (a : Int) : List Nat :=
  raw.drop (pyIdx raw.length a)

/-- Index of the first occurrence of byte `b` in a byte string. -/
def bfindIdx (b : Nat) : List Nat → Option Nat
  | [] => none
  | c :: rest => if c = b then some 0 else (bfindIdx b rest).map (· + 1)

/-- Python `raw.find(bytes([b]), start)`: first index `≥ start` holding `b`,
`-1` when there is none.  A negative `start` counts from the end. -/
def pyFind (raw : List Nat) (b : Nat) (start : Int) : Int :=
  let s : Nat := if start < 0 then ((raw.length : Int) + start).toNat else start.toNat
  match bfindIdx b (raw.drop s) with
  | some i => ((s + i : Nat) : Int)
  | none => -1

/-- ASCII decimal digit byte. -/
def isDigitByte (b : Nat) : Bool := decide (48 ≤ b) && decide (b ≤ 57)

/-- Byte that Python `str.strip`/`int` treats as whitespace (ASCII range). -/
def isSpaceByte (b : Nat) : Bool :=
  decide (b = 32) || decide (b = 9) || decide (b = 10) ||
  decide (b = 13) || decide (b = 11) || decide (b = 12)

/-- Value of a list of decimal digit bytes. -/
def decValBytes (ds : List Nat) : Nat := ds.foldl (fun acc d => acc * 10 + (d - 48)) 0

/-- Strip leading and trailing whitespace bytes (as Python `int` does). -/
def stripSpaceBytes (l : List Nat) : List Nat :=
  ((l.dropWhile isSpaceByte).reverse.dropWhile isSpaceByte).reverse

/-- Parse a nonempty all-digit byte string. -/
def pyDigitsVal (ds : List Nat) : Option Nat :=
  if ds.isEmpty then none
  else if ds.all isDigitByte then some (decValBytes ds) else none

/-- Parse an already-stripped numeral: optional `+`/`-` sign, then digits. -/
def pyIntParseStripped : List Nat → Option Int
  | [] => none
  | c :: ds =>
    if c = 43 then (pyDigitsVal ds).map Int.ofNat
    else if c = 45 then (pyDigitsVal ds).map (fun n => -(Int.ofNat n))
    else (pyDigitsVal (c :: ds)).map Int.ofNat

/-- Python `int(raw.decode("ascii"))`: fails when a byte is not ASCII or the
stripped text is not an optionally signed decimal numeral. -/
def pyIntOfAsciiBytes (l : List Nat) : Option Int :=
  if l.all (fun b => decide (b < 128)) then pyIntParseStripped (stripSpaceBytes l)
  else none

/-- Character of the regex class `[0-9A-Fa-f]` (libqit.py line 247). -/
def isPyHexDigit (c : Char) : Bool :=
  (decide (48 ≤ c.toNat) && decide (c.toNat ≤ 57)) ||
  (decide (97 ≤ c.toNat) && decide (c.toNat ≤ 102)) ||
  (decide (65 ≤ c.toNat) && decide (c.toNat ≤ 70))

/-- Character Python `str.strip` removes (ASCII whitespace). -/
def pyIsSpaceChar (c : Char) : Bool :=
  decide (c.toNat = 32) || decide (c.toNat = 9) || decide (c.toNat = 10) ||
  decide (c.toNat = 13) || decide (c.toNat = 11) || decide (c.toNat = 12)

/-- Python `s.strip()` on text. -/
def pyStripChars (l : List Char) : List Char :=
  ((l.dropWhile pyIsSpaceChar).reverse.dropWhile pyIsSpaceChar).reverse

/-- Truth test `not name.strip()` of libqit.py line 251. -/
def pyStripEmpty (s : String) : Bool := (pyStripChars s.data).isEmpty

/-- Python `str.lower()` restricted to ASCII. -/
def pyLowerChar (c : Char) : Char :=
  if 65 ≤ c.toNat && c.toNat ≤ 90 then Char.ofNat (c.toNat + 32) else c

/-- Python `name.lower()`. -/
def pyLowerStr (s : String) : String := String.mk (s.data.map pyLowerChar)

/-- Python `len(name)` for text. -/
def strLen (s : String) : Nat := s.data.length

/-- Python `s[:n]` on text. -/
def strTake (s : String) (n : Nat) : String := String.mk (s.data.take n)

/-- Python `s[n:]` on text. -/
def strDrop (s : String) (n : Nat) : String := String.mk (s.data.drop n)

/-- Python `s[:-1]` on text (drops the final character; identity on `""`). -/
def strDropRight1 (s : String) : String := String.mk s.data.dropLast

/-- Python `s.startswith(p)` on text. -/
def strIsPrefixOf (p s : String) : Bool := p.data.isPrefixOf s.data

/-- Association lookup with string keys (a directory of files, keyed by name). -/
def lookupStr {α : Type} : List (String × α) → String → Option α
  | [], _ => none
  | (k, v) :: rest, key => if k = key then some v else lookupStr rest key

/-- Association lookup with path keys. -/
def lookupPath : List (List String × String) → List String → Option String
  | [], _ => none
  | (k, v) :: rest, key => if k = key then some v else lookupPath rest key

/-! ## KVLM codec (libqit.py lines 361-420) -/

/-- A KVLM value: Python stores either one byte string or a list of them. -/
inductive KvlmVal where
  | one (v : List Nat)
  | many (vs : List (List Nat))
  deriving DecidableEq

/-- The ordered dictionary built by `kvlm_parse`: insertion-ordered
association list from byte-string keys to values. -/
abbrev Kvlm := List (List Nat × KvlmVal)

/-- Lines 392-398: `if key in dct:` append to (or create) the list, keeping the
key's original position, `else` bind the key at the end. -/
def kvlmInsert (dct : Kvlm) (k v : List Nat) : Kvlm :=
  if dct.any (fun e => e.1 == k) then
    dct.map (fun e =>
      if e.1 = k then
        (e.1, match e.2 with
              | KvlmVal.one old => KvlmVal.many [old, v]
              | KvlmVal.many vs => KvlmVal.many (vs ++ [v]))
      else e)
  else dct ++ [(k, KvlmVal.one v)]

/-- Line 374: plain assignment `dct[b''] = ...` (overwrites in place, appends
when the key is new). -/
def kvlmSet (dct : Kvlm) (k v : List Nat) : Kvlm :=
  if dct.any (fun e => e.1 == k) then
    dct.map (fun e => if e.1 = k then (k, KvlmVal.one v) else e)
  else dct ++ [(k, KvlmVal.one v)]

/-- Python `dct[key]` read. -/
def kvlmLookup : Kvlm → List Nat → Option KvlmVal
  | [], _ => none
  | (k, v) :: rest, key => if k = key then some v else kvlmLookup rest key

/-- Lines 382-386: the `while True` loop that finds a newline not followed by a
space.  `e` is the Python variable `end`; out of fuel means the loop does not
terminate; `none` also covers the `IndexError` of `raw[end+1]`. -/
def kvlmFindEnd (raw : List Nat) : Nat → Int → Option Int
  | 0, _ => none
  | fuel + 1, e =>
    let e2 := pyFind raw 10 (e + 1)
    if e2 + 1 < (raw.length : Int) then
      if (raw.drop (e2 + 1).toNat).headI = 32 then kvlmFindEnd raw fuel e2
      else some e2
    else none

/-- Lines 361-400, `kvlm_parse(raw, start, dct)` with explicit fuel for the
recursion.  `none` models an `assert` failure or non-termination. -/
def kvlm_parse_go (raw : List Nat) : Nat → Int → Kvlm → Option Kvlm
  | 0, _, _ => none
  | fuel + 1, start, dct =>
    let spc := pyFind raw 32 start
    let nl := pyFind raw 10 start
    if spc < 0 ∨ nl < spc then
      if nl = start then some (kvlmSet dct [] (pySliceFrom raw (start + 1)))
      else none
    else
      let key := pySlice raw start spc
      match kvlmFindEnd raw (raw.length + 2) start with
      | none => none
      | some e =>
        let value := pySlice raw (spc + 1) e
        kvlm_parse_go raw fuel (e + 1) (kvlmInsert dct key (replaceNlSp value))
where
  /-- `value.replace(b"\n ", b"\n")` (line 389). -/
  replaceNlSp : List Nat → List Nat
    | [] => []
    | 10 :: 32 :: rest => 10 :: replaceNlSp rest
    | b :: rest => b :: replaceNlSp rest

/-- Top-level `kvlm_parse(raw)` call (fresh dictionary, `start = 0`). -/
def kvlm_parse (raw : List Nat) : Option Kvlm :=
  kvlm_parse_go raw (raw.length + 2) 0 []

/-- `v.replace(b"\n", b"\n ")` (line 415). -/
def escapeNl : List Nat → List Nat
  | [] => []
  | 10 :: rest => 10 :: 32 :: escapeNl rest
  | b :: rest => b :: escapeNl rest

/-- Lines 402-420, `kvlm_serialize`.  Faithfully keeps the source's bug: the
`ret += b"\n" + kvlm[b""]` and the `return` sit INSIDE the `for k` loop, so the
function returns after the first non-message key.  `none` models falling off
the end of the function (Python returns `None`), a `KeyError` on `kvlm[b""]`,
or the `TypeError` of concatenating bytes with a list. -/
def kvlm_serialize_go (full : Kvlm) : Kvlm → List Nat → Option (List Nat)
  | [], _ => none
  | (k, v) :: rest, ret =>
    if k = [] then kvlm_serialize_go full rest ret
    else
      let vs := match v with
                | KvlmVal.one b => [b]
                | KvlmVal.many bs => bs
      let ret2 := ret ++ (vs.map (fun b => k ++ [32] ++ escapeNl b ++ [10])).flatten
      match kvlmLookup full [] with
      | some (KvlmVal.one msg) => some (ret2 ++ [10] ++ msg)
      | _ => none

/-- Top-level `kvlm_serialize(kvlm)`. -/
def kvlm_serialize (kvlm : Kvlm) : Option (List Nat) :=
  kvlm_serialize_go kvlm kvlm []

/-- The round trip `kvlm_serialize(kvlm_parse(x))` of spec §8 invariant 2. -/
def kvlm_round (raw : List Nat) : Option (Option (List Nat)) :=
  (kvlm_parse raw).map kvlm_serialize

/-! ## Tree codec (libqit.py lines 467-513) -/

/-- `GitTreeLeaf` (lines 467-471); `sha` is the hex string produced by
`hex(int.from_bytes(...))[2:]`. -/
structure GitTreeLeaf where
  mode : List Nat
  path : List Nat
  sha : String
  deriving DecidableEq

/-- `int.from_bytes(l, "big")`. -/
def bytesToNatBE (l : List Nat) : Nat := l.foldl (fun acc b => acc * 256 + b) 0

/-- `n.to_bytes(w, byteorder="big")` (assuming `n < 256^w`). -/
def natToBytesBE (w : Nat) (n : Nat) : List Nat :=
  (List.range w).map (fun i => n / 256 ^ (w - 1 - i) % 256)

/-- `hex(n)[2:]`: lowercase hex without the `0x` prefix, no leading zeros. -/
def pyHexStr (n : Nat) : String := String.mk (Nat.toDigits 16 n)

/-- Lines 473-491, `tree_parse_one(raw, start)`.  `none` models the `assert`
on the mode width failing. -/
def tree_parse_one (raw : List Nat) (start : Nat) : Option (Nat × GitTreeLeaf) :=
  let x := pyFind raw 32 start
  if x - (start : Int) = 5 ∨ x - (start : Int) = 6 then
    let mode := pySlice raw start x
    let y := pyFind raw 0 x
    let path := pySlice raw (x + 1) y
    let sha := pyHexStr (bytesToNatBE (pySlice raw (y + 1) (y + 21)))
    some ((y + 21).toNat, ⟨mode, path, sha⟩)
  else none

/-- Lines 493-501, the `while pos < max` loop of `tree_parse`, with fuel
(a Python iteration that failed to advance `pos` would loop forever). -/
def tree_parse_go (raw : List Nat) : Nat → Nat → Option (List GitTreeLeaf)
  | 0, _ => none
  | fuel + 1, pos =>
    if pos < raw.length then
      match tree_parse_one raw pos with
      | none => none
      | some (pos2, leaf) => (tree_parse_go raw fuel pos2).map (leaf :: ·)
    else some []

/-- Top-level `tree_parse(raw)`. -/
def tree_parse (raw : List Nat) : Option (List GitTreeLeaf) :=
  tree_parse_go raw (raw.length + 1) 0

/-- Errors of `tree_serialize`. -/
inductive TreeSerErr where
  | unboundLocalSha
  | valueError
  | overflow
  deriving DecidableEq

/-- Value of one hex digit character. -/
def hexCharVal (c : Char) : Nat :=
  if c.toNat ≤ 57 then c.toNat - 48
  else if c.toNat ≤ 70 then c.toNat - 55
  else c.toNat - 87

/-- Python `int(s, 16)` on a plain hex numeral. -/
def hexStrToNat (s : String) : Option Nat :=
  if s.data.isEmpty then none
  else if s.data.all isPyHexDigit then
    some (s.data.foldl (fun acc c => acc * 16 + hexCharVal c) 0)
  else none

/-- Lines 503-513, `tree_serialize`, faithfully keeping the source's bug: the
accumulator line reads `sha += int(i.sha, 16)` but the local `sha` is never
initialised, so the first loop iteration raises `UnboundLocalError`.  The
uninitialised local is threaded as an `Option Nat` starting at `none`. -/
def tree_serialize_go : List GitTreeLeaf → List Nat → Option Nat → Except TreeSerErr (List Nat)
  | [], ret, _ => Except.ok ret
  | i :: rest, ret, shaLoc =>
    let ret2 := ret ++ i.mode ++ [32] ++ i.path ++ [0]
    match shaLoc with
    | none => Except.error TreeSerErr.unboundLocalSha
    | some s =>
      match hexStrToNat i.sha with
      | none => Except.error TreeSerErr.valueError
      | some v =>
        let s2 := s + v
        if s2 < 2 ^ 160 then tree_serialize_go rest (ret2 ++ natToBytesBE 20 s2) (some s2)
        else Except.error TreeSerErr.overflow

/-- Top-level `tree_serialize` applied to the parsed entry list.  (The source
additionally passes the bare list where an object with an `items` attribute is
expected — `tree_serialize(tree_parse(x))` would in fact already fail on
`obj.items` — so this is the charitable reading; the `sha` bug remains.) -/
def tree_serialize (items : List GitTreeLeaf) : Except TreeSerErr (List Nat) :=
  tree_serialize_go items [] none

/-! ## Object read header (libqit.py lines 177-204) -/

/-- Errors of `object_read` after decompression. -/
inductive ReadErr where
  | malformedObject
  | unknownType
  | valueError
  deriving DecidableEq

/-- Lines 186-204 of `object_read`, applied to the decompressed bytes `raw`:
locate the first space and the first NUL after it, parse the ASCII decimal
size, check it against the payload length (`MalformedObject` otherwise), and
dispatch on the type tag (`UnknownType` when it is none of the four).
Returns the type tag together with the payload handed to the constructor. -/
def object_read_header (raw : List Nat) : Except ReadErr (List Nat × List Nat) :=
  let x := pyFind raw 32 0
  let fmt := pySlice raw 0 x
  let y := pyFind raw 0 x
  match pyIntOfAsciiBytes (pySlice raw x y) with
  | none => Except.error ReadErr.valueError
  | some size =>
    if size ≠ (raw.length : Int) - y - 1 then Except.error ReadErr.malformedObject
    else if fmt = strToBytes "commit" then Except.ok (fmt, pySliceFrom raw (y + 1))
    else if fmt = strToBytes "tree" then Except.ok (fmt, pySliceFrom raw (y + 1))
    else if fmt = strToBytes "tag" then Except.ok (fmt, pySliceFrom raw (y + 1))
    else if fmt = strToBytes "blob" then Except.ok (fmt, pySliceFrom raw (y + 1))
    else Except.error ReadErr.unknownType

/-! ## Reference resolution (libqit.py lines 578-585) -/

/-- How a call to `ref_resolve` can fail to produce a hash: the reference file
is missing (`FileNotFoundError`), or the recursion is still running after the
given fuel (the source has no depth cap, so on a cycle it recurses forever). -/
inductive RefErr where
  | fileNotFound
  | outOfFuel
  deriving DecidableEq

/-- The `ref: ` indirection marker (line 582). -/
def refMarker : String := "ref: "

/-- Lines 578-585, `ref_resolve(repo, ref)`: read the file, drop the final
character (`fp.read()[:-1]`), recurse on `data[5:]` when the content starts
with `ref: `, otherwise return the content.  `refs` maps reference names to
file contents; `fuel` bounds the source's unbounded recursion. -/
def ref_resolve (refs : List (String × String)) : Nat → String → Except RefErr String
  | 0, _ => Except.error RefErr.outOfFuel
  | fuel + 1, ref =>
    match lookupStr refs ref with
    | none => Except.error RefErr.fileNotFound
    | some content =>
      let data := strDropRight1 content
      if strIsPrefixOf refMarker data then ref_resolve refs fuel (strDrop data 5)
      else Except.ok data

/-! ## Name resolution (libqit.py lines 206-273) -/

/-- The parts of an on-disk repository that `object_resolve` reads: the
reference files (name → content) and the listings of the `objects/<xx>/`
directories (two-hex-char prefix → file names inside). -/
structure Repo where
  refs : List (String × String)
  objects : List (String × List String)

/-- The anchored regex `^[0-9A-Fa-f]{1,16}$` of lines 247-248 (note the upper
bound 16, not 40). -/
def hashREmatch (name : String) : Bool :=
  decide (1 ≤ strLen name) && decide (strLen name ≤ 16) && name.data.all isPyHexDigit

/-- Lines 238-273, `object_resolve(repo, name)`.  `Except.ok none` is Python's
`return None` (blank name); errors propagate from `ref_resolve` on the `HEAD`
branch. -/
def object_resolve (repo : Repo) (fuel : Nat) (name : String) :
    Except RefErr (Option (List String)) :=
  if pyStripEmpty name then Except.ok none
  else if name = "HEAD" then
    match ref_resolve repo.refs fuel "HEAD" with
    | Except.error e => Except.error e
    | Except.ok h => Except.ok (some [h])
  else if hashREmatch name then
    if strLen name = 40 then Except.ok (some [pyLowerStr name])
    else if 4 ≤ strLen name then
      let nm := pyLowerStr name
      let pre := strTake nm 2
      match lookupStr repo.objects pre with
      | some files =>
          Except.ok (some ((files.filter (fun f => strIsPrefixOf (strDrop nm 2) f)).map
            (fun f => pre ++ f)))
      | none => Except.ok (some [])
    else Except.ok (some [])
  else Except.ok (some [])

/-- Errors of `object_find`. -/
inductive FindErr where
  | unknownRef
  | ambiguousRef (cands : List String)
  | refError (e : RefErr)
  deriving DecidableEq

/-- Lines 206-218, `object_find(repo, name)` without an expected type
(`fmt=None`, so it returns right after picking the single candidate):
`not sha` (None or empty list) raises `No such reference`; `len(sha) > 1`
raises the ambiguity error carrying the candidates; otherwise `sha[0]`. -/
def object_find (repo : Repo) (fuel : Nat) (name : String) : Except FindErr String :=
  match object_resolve repo fuel name with
  | Except.error e => Except.error (FindErr.refError e)
  | Except.ok none => Except.error FindErr.unknownRef
  | Except.ok (some []) => Except.error FindErr.unknownRef
  | Except.ok (some [h]) => Except.ok h
  | Except.ok (some l) => Except.error (FindErr.ambiguousRef l)

/-! ## Repository creation (libqit.py lines 87-118) -/

/-- The directories `repo_create` makes under `path/.git` (lines 100-103), in
call order, as relative paths.  Note line 103 creates `regs/heads`. -/
def repo_create_dirs : List (List String) :=
  [["branches"], ["objects"], ["refs", "tags"], ["regs", "heads"]]

/-- The files `repo_create` writes under `path/.git` (lines 105-116), with
their contents (`config` as `ConfigParser.write` prints the default config of
lines 120-128). -/
def repo_create_files : List (List String × String) :=
  [ (["description"],
     "Unnamed repository; edit this file 'description' to name the repository.\n"),
    (["HEAD"], "ref: refs/heads/master\n"),
    (["config"],
     "[core]\nrepositoryformatversion = 0\nfilemode = false\nbare = false\n\n") ]

/-! ## Concrete inputs used by the claims -/

/-- A 40-character hexadecimal name. -/
def name40 : String := String.mk (List.replicate 40 'a')

/-- A repository that even contains an object whose hash is `name40`. -/
def repoC1 : Repo := ⟨[], [("aa", [String.mk (List.replicate 38 'a')])]⟩

/-- Canonical two-header KVLM payload `tree abc\nauthor x\n\nmsg\n`. -/
def kvX2 : List Nat := strToBytes "tree abc\nauthor x\n\nmsg\n"

/-- The KVLM payload of spec scenario E4. -/
def kvX8 : List Nat := strToBytes "tree abc\nparent p1\nparent p2\n\nmsg\n"

/-- A well-formed one-entry tree payload: `100644 a\x00` + 20 hash bytes. -/
def treeX : List Nat := strToBytes "100644 a" ++ 0 :: List.replicate 20 171

/-- Decompressed object bytes with header `junk 5` and payload `abc`. -/
def junkRaw5 : List Nat := strToBytes "junk" ++ 32 :: strToBytes "5" ++ 0 :: strToBytes "abc"

/-- Decompressed object bytes with header `junk 3` and payload `abc` (spec E3). -/
def junkRaw3 : List Nat := strToBytes "junk" ++ 32 :: strToBytes "3" ++ 0 :: strToBytes "abc"

/-- A self-referential reference file: `HEAD` contains `ref: HEAD\n`. -/
def cycRefs : List (String × String) := [("HEAD", "ref: HEAD\n")]

/-- Content `<40 hex chars>\n`. -/
def cW1 : String := String.mk (List.replicate 40 'a' ++ ['\n'])

/-- Content `<40 hex chars>` with no trailing newline. -/
def cW2 : String := String.mk (List.replicate 40 'a')

/-- Two reference files: one hash with trailing newline, one bare hash. -/
def refsW : List (String × String) :=
  [("refs/heads/withnl", cW1), ("refs/heads/bare", cW2)]

/-- The first 39 of the 40 hex characters. -/
def hash39 : String := String.mk (List.replicate 39 'a')

/-- Repository with no matching object. -/
def repoW6a : Repo := ⟨[], []⟩

/-- Repository with exactly one object whose hash starts `abcd`. -/
def repoW6b : Repo := ⟨[], [("ab", ["cd11"])]⟩

/-- Repository with two objects whose hashes start `abcd`. -/
def repoW6c : Repo := ⟨[], [("ab", ["cd11", "cd22"])]⟩

/-! ## Theorems -/

/-- Claim C8: `kvlm_parse` on `tree abc\nparent p1\nparent p2\n\nmsg\n` yields
the ordered mapping `{tree: "abc", parent: ["p1", "p2"], "": "msg\n"}`: the two
`parent` headers collapse into a two-element sequence in insertion order at
the key's first position, and the message after the blank line is bound to the
empty key. -/
theorem kvlm_parse_e4 :
    kvlm_parse kvX8 =
      some [(strToBytes "tree", KvlmVal.one (strToBytes "abc")),
            (strToBytes "parent", KvlmVal.many [strToBytes "p1", strToBytes "p2"]),
            ([], KvlmVal.one (strToBytes "msg\n"))] := by
  decide

/-- Claim C2: the KVLM round trip fails on the code.  On the canonical payload
`tree abc\nauthor x\n\nmsg\n`, `kvlm_serialize(kvlm_parse(x))` returns
`tree abc\n\nmsg\n` — the `author` header is lost because `kvlm_serialize`
returns from inside its per-key loop — which differs from `x`. -/
theorem kvlm_round_not_identity :
    kvlm_round kvX2 = some (some (strToBytes "tree abc\n\nmsg\n"))
    ∧ ((strToBytes "tree abc\n\nmsg\n" : List Nat) == kvX2) = false := by
  decide

/-- Claim C3: the tree round trip fails on the code.  On the well-formed
one-entry payload `treeX`, `tree_parse` succeeds but `tree_serialize` raises
`UnboundLocalError` on its uninitialised `sha` accumulator instead of
reproducing the input. -/
theorem tree_round_raises :
    (tree_parse treeX).map tree_serialize = some (Except.error TreeSerErr.unboundLocalSha)
    ∧ ((Except.error TreeSerErr.unboundLocalSha : Except TreeSerErr (List Nat))
        == Except.ok treeX) = false := by
  decide

/-- Claim C4: `repo_create` writes `HEAD` as the claim says, but creates the
directory `regs/heads` (line 103) and never creates `refs/heads`. -/
theorem repo_create_regs_typo :
    repo_create_dirs.contains ["regs", "heads"] = true
    ∧ repo_create_dirs.contains ["refs", "heads"] = false
    ∧ lookupPath repo_create_files ["HEAD"] = some "ref: refs/heads/master\n" := by
  decide

/-- Claim C1: `object_resolve` on a 40-character hexadecimal name returns NO
candidate, not the lowercased name: the regex of line 247 is anchored at 16
characters, so the `len(name) == 40` branch is unreachable, even when the
named object exists in the repository. -/
theorem object_resolve_full_hash_empty :
    object_resolve repoC1 1 name40 = Except.ok (some [])
    ∧ (object_resolve repoC1 1 name40 == Except.ok (some [pyLowerStr name40])) = false := by
  decide

/-- Claim C7 counterexample: on the header `junk 5` with payload `abc` the type
tag is unknown, yet `object_read` fails `MalformedObject`, not `UnknownType`
(the size check runs first). -/
theorem object_read_junk5_malformed :
    object_read_header junkRaw5 = Except.error ReadErr.malformedObject
    ∧ (object_read_header junkRaw5 == Except.error ReadErr.unknownType) = false := by
  decide

/-- Claim C5: `ref_resolve` has no depth cap.  On the self-referential
reference file `HEAD -> ref: HEAD`, no amount of fuel makes the recursion
return: the source recurses forever (until Python's `RecursionError`) and
never produces a `RefCycle`-style failure. -/
theorem ref_resolve_self_cycle :
    ∀ fuel : Nat, ref_resolve cycRefs fuel "HEAD" = Except.error RefErr.outOfFuel := by
  intro fuel
  induction fuel with
  | zero => rfl
  | succ n ih =>
    have hstep : ref_resolve cycRefs (n + 1) "HEAD" = ref_resolve cycRefs n "HEAD" := rfl
    rw [hstep, ih]

/-- Claim C9: `ref_resolve` unconditionally removes exactly the last character
of the reference file's content before interpreting it: on any reference file
whose content (less its last character) is not a `ref: ` indirection, it
returns the content with exactly its last character removed — so a hash plus
newline yields the hash, while a bare hash loses its final character. -/
theorem ref_resolve_strips_last (refs : List (String × String)) (r c : String) (fuel : Nat)
    (h1 : lookupStr refs r = some c)
    (h2 : strIsPrefixOf refMarker (strDropRight1 c) = false) :
    ref_resolve refs (fuel + 1) r = Except.ok (strDropRight1 c) := by
  simp [ref_resolve, h1, h2]

/-- Claim C9 witness: on content `<40 hex>\n` the hash is returned, on bare
content `<40 hex>` (no trailing newline) only the first 39 characters are. -/
theorem ref_resolve_strips_last_witness :
    ref_resolve refsW 1 "refs/heads/withnl" = Except.ok cW2
    ∧ ref_resolve refsW 1 "refs/heads/bare" = Except.ok hash39 := by
  constructor
  · have h := ref_resolve_strips_last refsW "refs/heads/withnl" cW1 0 (by decide) (by decide)
    rw [h]; decide
  · have h := ref_resolve_strips_last refsW "refs/heads/bare" cW2 0 (by decide) (by decide)
    rw [h]; decide

/-- Claim C6: `object_find` without an expected type dispatches on the result
of `object_resolve`: `None` or an empty candidate list fails `UnknownRef`, a
single candidate is returned as the hash, and two or more candidates fail
`AmbiguousRef` carrying the candidate list. -/
theorem object_find_dispatch (repo : Repo) (fuel : Nat) (name : String) :
    (object_resolve repo fuel name = Except.ok none →
      object_find repo fuel name = Except.error FindErr.unknownRef)
    ∧ (object_resolve repo fuel name = Except.ok (some []) →
      object_find repo fuel name = Except.error FindErr.unknownRef)
    ∧ (∀ h : String, object_resolve repo fuel name = Except.ok (some [h]) →
      object_find repo fuel name = Except.ok h)
    ∧ (∀ (c1 c2 : String) (cs : List String),
      object_resolve repo fuel name = Except.ok (some (c1 :: c2 :: cs)) →
      object_find repo fuel name = Except.error (FindErr.ambiguousRef (c1 :: c2 :: cs))) := by
  refine ⟨fun h => ?_, fun h => ?_, fun x h => ?_, fun c1 c2 cs h => ?_⟩ <;>
    simp [object_find, h]

/-- Claim C6 witness: the three outcomes on concrete repositories. -/
theorem object_find_dispatch_witness :
    object_find repoW6a 1 " " = Except.error FindErr.unknownRef
    ∧ object_find repoW6b 1 "abcd" = Except.ok "abcd11"
    ∧ object_find repoW6c 1 "abcd" = Except.error (FindErr.ambiguousRef ["abcd11", "abcd22"]) :=
  ⟨(object_find_dispatch repoW6a 1 " ").1 (by decide),
   (object_find_dispatch repoW6b 1 "abcd").2.2.1 "abcd11" (by decide),
   (object_find_dispatch repoW6c 1 "abcd").2.2.2 "abcd11" "abcd22" [] (by decide)⟩

/-- Helper: a hexadecimal character is not whitespace. -/
theorem isPyHexDigit_not_space {c : Char} (h : isPyHexDigit c = true) :
    pyIsSpaceChar c = false := by
  simp only [isPyHexDigit, Bool.or_eq_true, Bool.and_eq_true, decide_eq_true_eq] at h
  simp only [pyIsSpaceChar, Bool.or_eq_false_iff, decide_eq_false_iff_not]
  omega

/-- Claim C10: a name that is a hexadecimal string of length 1 to 3 passes the
hash regex but reaches neither the full-hash branch (length 40) nor the short
hash branch (length ≥ 4), so `object_resolve` returns the empty candidate
list and `object_find` consequently fails `UnknownRef` — whatever the
repository contains. -/
theorem object_resolve_short_hex (repo : Repo) (fuel : Nat) (name : String)
    (h1 : name.data ≠ []) (h2 : name.data.length ≤ 3)
    (h3 : name.data.all isPyHexDigit = true) :
    object_resolve repo fuel name = Except.ok (some [])
    ∧ object_find repo fuel name = Except.error FindErr.unknownRef := by
  have hallc : ∀ x ∈ name.data, isPyHexDigit x = true := List.all_eq_true.mp h3
  have hstrip : pyStripEmpty name = false := by
    unfold pyStripEmpty pyStripChars
    obtain ⟨c, cs, hcons⟩ := List.exists_cons_of_ne_nil h1
    have hc : pyIsSpaceChar c = false :=
      isPyHexDigit_not_space (hallc c (by rw [hcons]; exact List.mem_cons_self c cs))
    obtain ⟨d, t, hrev⟩ := List.exists_cons_of_ne_nil
      (l := name.data.reverse) (by simp [h1])
    have hd : pyIsSpaceChar d = false := by
      refine isPyHexDigit_not_space (hallc d ?_)
      rw [← List.mem_reverse, hrev]
      exact List.mem_cons_self d t
    have e1 : name.data.dropWhile pyIsSpaceChar = name.data := by
      rw [hcons, List.dropWhile_cons, hc]; simp
    have e2 : name.data.reverse.dropWhile pyIsSpaceChar = name.data.reverse := by
      rw [hrev, List.dropWhile_cons, hd]; simp
    rw [e1, e2, List.reverse_reverse, hcons]
    simp
  have hhead : ¬(name = "HEAD") := by
    intro h
    have h4 : name.data.length = 4 := by rw [h]; decide
    omega
  have hlenpos : 1 ≤ name.data.length := List.length_pos.mpr h1
  have hre : hashREmatch name = true := by
    unfold hashREmatch strLen
    rw [Bool.and_eq_true, Bool.and_eq_true]
    exact ⟨⟨decide_eq_true (by omega), decide_eq_true (by omega)⟩, h3⟩
  have h40 : ¬(strLen name = 40) := by unfold strLen; omega
  have h4 : ¬(4 ≤ strLen name) := by unfold strLen; omega
  have hres : object_resolve repo fuel name = Except.ok (some []) := by
    unfold object_resolve
    rw [hstrip]
    simp [hhead, hre, h40, h4]
  exact ⟨hres, by simp [object_find, hres]⟩

/-- Claim C10 witness: the 3-character hexadecimal name `a1F`. -/
theorem object_resolve_short_hex_witness :
    object_resolve repoW6a 3 "a1F" = Except.ok (some [])
    ∧ object_find repoW6a 3 "a1F" = Except.error FindErr.unknownRef :=
  object_resolve_short_hex repoW6a 3 "a1F" (by decide) (by decide) (by decide)

/-- Helper: first occurrence of `b` in `a ++ b :: rest` when `b` is not in `a`. -/
theorem bfindIdx_append (b : Nat) (a rest : List Nat) (h : b ∉ a) :
    bfindIdx b (a ++ b :: rest) = some a.length := by
  induction a with
  | nil => simp [bfindIdx]
  | cons c a ih =>
    rw [List.mem_cons, not_or] at h
    show (if c = b then some 0 else (bfindIdx b (a ++ b :: rest)).map (· + 1)) =
      some (a.length + 1)
    rw [if_neg (fun e => h.1 e.symm), ih h.2]
    rfl

/-- Helper: `pyFind` from a nonnegative start, when the remainder decomposes
as `a ++ b :: rest` with `b` not in `a`. -/
theorem pyFind_from_nat (raw : List Nat) (b : Nat) (s : Nat) (a rest : List Nat)
    (hdrop : raw.drop s = a ++ b :: rest) (h : b ∉ a) :
    pyFind raw b (s : Int) = ((s + a.length : Nat) : Int) := by
  have h1 : ¬((s : Int) < 0) := by omega
  simp only [pyFind]
  rw [if_neg h1, Int.toNat_natCast, hdrop, bfindIdx_append b a rest h]

/-- Helper: a Python slice with in-range `Nat` endpoints is drop-then-take. -/
theorem pySlice_natcast (raw : List Nat) (a b : Nat)
    (ha : a ≤ raw.length) (hb : b ≤ raw.length) :
    pySlice raw (a : Int) (b : Int) = (raw.drop a).take (b - a) := by
  have h1 : ¬((a : Int) < 0) := by omega
  have h2 : ¬((b : Int) < 0) := by omega
  simp only [pySlice, pyIdx]
  rw [if_neg h1, if_neg h2, Int.toNat_natCast, Int.toNat_natCast,
    min_eq_left ha, min_eq_left hb]

/-- Helper: a decimal digit byte is not whitespace. -/
theorem isDigitByte_not_space {b : Nat} (h : isDigitByte b = true) :
    isSpaceByte b = false := by
  simp only [isDigitByte, Bool.and_eq_true, decide_eq_true_eq] at h
  simp only [isSpaceByte, Bool.or_eq_false_iff, decide_eq_false_iff_not]
  omega

/-- Helper: Python `int` on `SP` followed by a nonempty run of decimal digits
(the exact shape `raw[x:y]` takes in `object_read`) yields their value. -/
theorem pyInt_space_digits (ds : List Nat) (hne : ds ≠ [])
    (hdig : ds.all isDigitByte = true) :
    pyIntOfAsciiBytes (32 :: ds) = some ((decValBytes ds : Nat) : Int) := by
  have halld : ∀ x ∈ ds, isDigitByte x = true := List.all_eq_true.mp hdig
  obtain ⟨d, t, rfl⟩ := List.exists_cons_of_ne_nil hne
  have hd : isDigitByte d = true := halld d (List.mem_cons_self d t)
  have hdb : 48 ≤ d ∧ d ≤ 57 := by
    simpa only [isDigitByte, Bool.and_eq_true, decide_eq_true_eq] using hd
  have hall128 : (32 :: d :: t).all (fun b => decide (b < 128)) = true := by
    rw [List.all_eq_true]
    intro x hx
    rw [List.mem_cons, List.mem_cons] at hx
    rw [decide_eq_true_eq]
    rcases hx with rfl | rfl | hx
    · omega
    · omega
    · have := halld x (List.mem_cons_of_mem d hx)
      simp only [isDigitByte, Bool.and_eq_true, decide_eq_true_eq] at this
      omega
  obtain ⟨e, r, hrev⟩ := List.exists_cons_of_ne_nil (l := (d :: t).reverse) (by simp)
  have he : isSpaceByte e = false := by
    refine isDigitByte_not_space (halld e ?_)
    rw [← List.mem_reverse, hrev]
    exact List.mem_cons_self e r
  have hstrip : stripSpaceBytes (32 :: d :: t) = d :: t := by
    unfold stripSpaceBytes
    have s32 : isSpaceByte 32 = true := by decide
    have sd : isSpaceByte d = false := isDigitByte_not_space hd
    rw [List.dropWhile_cons, s32]
    simp only [if_true]
    rw [List.dropWhile_cons, sd]
    simp only [Bool.false_eq_true, if_false]
    rw [hrev, List.dropWhile_cons, he]
    simp only [Bool.false_eq_true, if_false]
    rw [← hrev, List.reverse_reverse]
  unfold pyIntOfAsciiBytes
  rw [if_pos hall128, hstrip]
  simp only [pyIntParseStripped]
  rw [if_neg (by omega : ¬(d = 43)), if_neg (by omega : ¬(d = 45))]
  unfold pyDigitsVal
  rw [if_neg (by simp), if_pos hdig]
  rfl

/-- Claim C7 (amended): in `object_read` the size check runs before the type
dispatch.  On decompressed bytes `fmtB ++ SP ++ sizeB ++ NUL ++ payload` with
a digit size field: whenever the size differs from the payload length the
result is `MalformedObject` (whatever the type tag); when the size matches and
the type tag is none of `blob`, `tree`, `commit`, `tag`, the result is
`UnknownType`. -/
theorem object_read_header_cases (fmtB sizeB payload : List Nat)
    (hsp : 32 ∉ fmtB) (hnul : 0 ∉ sizeB) (hne : sizeB ≠ [])
    (hdig : sizeB.all isDigitByte = true) :
    (((decValBytes sizeB : Nat) : Int) ≠ (payload.length : Int) →
      object_read_header (fmtB ++ 32 :: sizeB ++ 0 :: payload) =
        Except.error ReadErr.malformedObject)
    ∧ (((decValBytes sizeB : Nat) : Int) = (payload.length : Int) →
      fmtB ≠ strToBytes "commit" → fmtB ≠ strToBytes "tree" →
      fmtB ≠ strToBytes "tag" → fmtB ≠ strToBytes "blob" →
      object_read_header (fmtB ++ 32 :: sizeB ++ 0 :: payload) =
        Except.error ReadErr.unknownType) := by
  have hx : pyFind (fmtB ++ 32 :: sizeB ++ 0 :: payload) 32 0 = (fmtB.length : Int) := by
    have h := pyFind_from_nat (fmtB ++ 32 :: sizeB ++ 0 :: payload) 32 0 fmtB
      (sizeB ++ 0 :: payload) (by simp) hsp
    simpa using h
  have hdropf : (fmtB ++ 32 :: sizeB ++ 0 :: payload).drop fmtB.length =
      (32 :: sizeB) ++ 0 :: payload := by
    rw [List.append_assoc]
    exact List.drop_left fmtB ((32 :: sizeB) ++ (0 :: payload))
  have hnul2 : (0 : Nat) ∉ 32 :: sizeB := by
    rw [List.mem_cons, not_or]
    exact ⟨by omega, hnul⟩
  have hy : pyFind (fmtB ++ 32 :: sizeB ++ 0 :: payload) 0 (fmtB.length : Int) =
      ((fmtB.length + (sizeB.length + 1) : Nat) : Int) :=
    pyFind_from_nat _ 0 fmtB.length (32 :: sizeB) payload hdropf hnul2
  have hlen1 : fmtB.length ≤ (fmtB ++ 32 :: sizeB ++ 0 :: payload).length := by
    simp [List.length_append]
  have hlen2 : fmtB.length + (sizeB.length + 1) ≤
      (fmtB ++ 32 :: sizeB ++ 0 :: payload).length := by
    simp only [List.length_append, List.length_cons]
    omega
  have hfmt : pySlice (fmtB ++ 32 :: sizeB ++ 0 :: payload) 0 (fmtB.length : Int) = fmtB := by
    have h := pySlice_natcast (fmtB ++ 32 :: sizeB ++ 0 :: payload) 0 fmtB.length
      (by omega) hlen1
    rw [show ((0 : Nat) : Int) = (0 : Int) from rfl] at h
    rw [h, List.drop_zero, Nat.sub_zero, List.append_assoc]
    exact List.take_left fmtB ((32 :: sizeB) ++ (0 :: payload))
  have hsz : pySlice (fmtB ++ 32 :: sizeB ++ 0 :: payload) (fmtB.length : Int)
      ((fmtB.length + (sizeB.length + 1) : Nat) : Int) = 32 :: sizeB := by
    rw [pySlice_natcast _ fmtB.length (fmtB.length + (sizeB.length + 1)) hlen1 hlen2]
    rw [hdropf]
    rw [show fmtB.length + (sizeB.length + 1) - fmtB.length = sizeB.length + 1 by omega]
    exact List.take_left (32 :: sizeB) (0 :: payload)
  have hint : pyIntOfAsciiBytes (32 :: sizeB) = some ((decValBytes sizeB : Nat) : Int) :=
    pyInt_space_digits sizeB hne hdig
  have hlen3 : ((fmtB ++ 32 :: sizeB ++ 0 :: payload).length : Int) -
      ((fmtB.length + (sizeB.length + 1) : Nat) : Int) - 1 = (payload.length : Int) := by
    simp only [List.length_append, List.length_cons]
    push_cast
    ring
  have hred : object_read_header (fmtB ++ 32 :: sizeB ++ 0 :: payload) =
      (if ((decValBytes sizeB : Nat) : Int) ≠ (payload.length : Int) then
        Except.error ReadErr.malformedObject
      else if fmtB = strToBytes "commit" then
        Except.ok (fmtB, pySliceFrom (fmtB ++ 32 :: sizeB ++ 0 :: payload)
          (((fmtB.length + (sizeB.length + 1) : Nat) : Int) + 1))
      else if fmtB = strToBytes "tree" then
        Except.ok (fmtB, pySliceFrom (fmtB ++ 32 :: sizeB ++ 0 :: payload)
          (((fmtB.length + (sizeB.length + 1) : Nat) : Int) + 1))
      else if fmtB = strToBytes "tag" then
        Except.ok (fmtB, pySliceFrom (fmtB ++ 32 :: sizeB ++ 0 :: payload)
          (((fmtB.length + (sizeB.length + 1) : Nat) : Int) + 1))
      else if fmtB = strToBytes "blob" then
        Except.ok (fmtB, pySliceFrom (fmtB ++ 32 :: sizeB ++ 0 :: payload)
          (((fmtB.length + (sizeB.length + 1) : Nat) : Int) + 1))
      else Except.error ReadErr.unknownType) := by
    simp only [object_read_header]
    rw [hx, hy, hfmt, hsz, hint, hlen3]
  constructor
  · intro hsize
    rw [hred, if_pos hsize]
  · intro heq hc ht htag hb
    rw [hred, if_neg (fun contra => contra heq), if_neg hc, if_neg ht, if_neg htag,
      if_neg hb]

/-- Claim C7 witness: `junk 5\x00abc` (size 5 ≠ payload length 3) fails
`MalformedObject`; `junk 3\x00abc` (size matches, unknown tag) fails
`UnknownType` — spec scenario E3. -/
theorem object_read_header_cases_witness :
    object_read_header junkRaw5 = Except.error ReadErr.malformedObject
    ∧ object_read_header junkRaw3 = Except.error ReadErr.unknownType := by
  constructor
  · exact (object_read_header_cases (strToBytes "junk") (strToBytes "5") (strToBytes "abc")
      (by decide) (by decide) (by decide) (by decide)).1 (by decide)
  · exact (object_read_header_cases (strToBytes "junk") (strToBytes "3") (strToBytes "abc")
      (by decide) (by decide) (by decide) (by decide)).2 (by decide) (by decide) (by decide)
      (by decide) (by decide)
